import Mathlib

/-!
Verification of the camera factory of the autonomous physical-therapy device
repository. The definitions below are a shallow embedding of
src/cpp/hardware/camera_factory.cpp and include/hardware/icamera.h /
camera_factory.h: C++ floats are modelled as exact rationals (all comparisons
performed by the code are far from the float rounding error of the constants
involved), machine strings as Lean strings, vendor SDK probe and creation
results as an explicit environment record, and wall-clock time as an integer
timestamp in milliseconds. Fallible C++ paths (nullptr returns, caught
exceptions) are modelled as Option.
-/

namespace TherapyDevice

/-- Strict comparison on the rationals by cross multiplication. Rat.sub and
the Rat division underlying rational literals do not reduce inside the
kernel, so the comparisons and differences the factory computes on
detection confidences are written with these explicitly executable helpers;
ratLt_iff and ratSub_eq below prove them equal to the standard order and
subtraction of the rationals. -/
def ratLt (a b : Rat) : Bool :=
  decide (a.num * (b.den : Int) < b.num * (a.den : Int))

/-- Subtraction on the rationals through Rat.divInt; see ratLt. -/
def ratSub (a b : Rat) : Rat :=
  Rat.divInt (a.num * (b.den : Int) - b.num * (a.den : Int))
    ((a.den : Int) * (b.den : Int))

/-- Absolute value on the rationals, mirroring the std::abs call of the
comparison lambda; see ratLt. -/
def ratAbs (q : Rat) : Rat := if q.num < 0 then -q else q

/-- Hardware detection result, mirroring struct HardwareDetectionResult
(camera_factory.h lines 37-47). The additional_info string map is omitted:
no factory decision reads it. detection_confidence is a C++ float in [0,1],
modelled as an exact rational. -/
structure HardwareDetectionResult where
  camera_type : String
  model_name : String
  serial_number : String
  firmware_version : String
  is_medical_grade : Bool
  is_production_ready : Bool
  detection_confidence : Rat
  connection_interface : String
deriving DecidableEq

/-- Factory configuration, mirroring struct CameraFactoryConfig
(camera_factory.h lines 54-63). -/
structure CameraFactoryConfig where
  prefer_production_hardware : Bool
  enable_automatic_detection : Bool
  enable_hardware_validation : Bool
  enable_medical_compliance_check : Bool
  preferred_camera_type : String
  detection_timeout_ms : Int
  enable_fallback_mode : Bool
  enable_simulation_mode : Bool
deriving DecidableEq

/-- The DEFAULT_CONFIG static value (camera_factory.cpp lines 29-38). -/
def DEFAULT_CONFIG : CameraFactoryConfig where
  prefer_production_hardware := true
  enable_automatic_detection := true
  enable_hardware_validation := true
  enable_medical_compliance_check := true
  preferred_camera_type := "auto"
  detection_timeout_ms := 5000
  enable_fallback_mode := true
  enable_simulation_mode := false

/-- Camera capture configuration with its in-class default member
initializers, mirroring struct CameraConfig (icamera.h lines 165-196).
Float defaults are modelled as exact rationals. -/
structure CameraConfig where
  width : Int := 640
  height : Int := 480
  fps : Int := 30
  enable_color : Bool := true
  enable_depth : Bool := true
  enable_infrared : Bool := false
  color_format : Int := 0
  auto_exposure : Bool := true
  exposure_value : Int := 0
  auto_white_balance : Bool := true
  enable_hardware_sync : Bool := true
  buffer_size : Int := 5
  timeout_ms : Int := 1000
  enable_validation : Bool := true
  enable_checksums : Bool := true
  min_confidence : Rat := 4/5
  max_temperature : Rat := 70
  watchdog_timeout_ms : Int := 5000
  enable_safety_monitoring : Bool := true
deriving DecidableEq

/-- A default-constructed CameraConfig (all fields take their in-class
default member initializers). -/
def defaultCameraConfig : CameraConfig := {}

/-- The camera error enumeration, mirroring enum class CameraError
(icamera.h lines 127-142). -/
inductive CameraError where
  | SUCCESS
  | DEVICE_NOT_FOUND
  | CONNECTION_FAILED
  | INITIALIZATION_FAILED
  | CAPTURE_FAILED
  | INVALID_CONFIGURATION
  | HARDWARE_FAULT
  | FIRMWARE_ERROR
  | CALIBRATION_ERROR
  | TIMEOUT
  | INSUFFICIENT_POWER
  | TEMPERATURE_ERROR
  | MEMORY_ERROR
  | SAFETY_VIOLATION
deriving DecidableEq

/-- The numeric value each CameraError enumerator is declared with
(icamera.h lines 127-142). -/
def cameraErrorCode : CameraError → Nat
  | .SUCCESS => 0
  | .DEVICE_NOT_FOUND => 1001
  | .CONNECTION_FAILED => 1002
  | .INITIALIZATION_FAILED => 1003
  | .CAPTURE_FAILED => 1004
  | .INVALID_CONFIGURATION => 1005
  | .HARDWARE_FAULT => 1006
  | .FIRMWARE_ERROR => 1007
  | .CALIBRATION_ERROR => 1008
  | .TIMEOUT => 1009
  | .INSUFFICIENT_POWER => 1010
  | .TEMPERATURE_ERROR => 1011
  | .MEMORY_ERROR => 1012
  | .SAFETY_VIOLATION => 1013

/-- All members of the CameraError enumeration, in declaration order. -/
def allCameraErrors : List CameraError :=
  [.SUCCESS, .DEVICE_NOT_FOUND, .CONNECTION_FAILED, .INITIALIZATION_FAILED,
   .CAPTURE_FAILED, .INVALID_CONFIGURATION, .HARDWARE_FAULT, .FIRMWARE_ERROR,
   .CALIBRATION_ERROR, .TIMEOUT, .INSUFFICIENT_POWER, .TEMPERATURE_ERROR,
   .MEMORY_ERROR, .SAFETY_VIOLATION]

/-- Environment supplied by the vendor SDK sub-factories and custom
factories. detectConnectedCameras of each sub-factory yields serial
numbers; creation of a camera object may fail (nullptr or a thrown
exception, both collapsed into a false flag); camera->validate() of a
freshly built camera succeeds or not per created type. custom_types is the
custom_factories_ registration map as an association list together with
whether the registered factory function produces a camera. The model
assumes the build defines THERAPY_DEVICE_HAS_REALSENSE and
THERAPY_DEVICE_HAS_ORBBEC, so both probe loops of camera_factory.cpp lines
376-449 are compiled in. -/
structure HardwareEnv where
  d435_serials : List String
  femto_serials : List String
  d435_create_ok : Bool
  femto_create_ok : Bool
  custom_types : List (String × Bool)
  validate_ok : String → Bool

/-- Internal factory state: the fields of class CameraFactory that the
claims exercise (camera_factory.h lines 253-264). The error_messages_
vector is modelled separately by addErrorMessage / runErrorOps below.
last_detection_time is a system_clock timestamp in milliseconds. -/
structure FactoryState where
  config : CameraFactoryConfig
  simulation_mode : Bool
  detection_cache : List HardwareDetectionResult
  last_detection_time : Int
  detection_cache_valid : Bool

/-- Build a factory state with the given configuration and simulation flag
and an empty, invalid detection cache. After configure() the code keeps
simulation_mode_ equal to config_.enable_simulation_mode. -/
def mkState (cfg : CameraFactoryConfig) (sim : Bool) : FactoryState where
  config := cfg
  simulation_mode := sim
  detection_cache := []
  last_detection_time := 0
  detection_cache_valid := false

/-- The detection record built for each connected D435 serial number
(camera_factory.cpp lines 385-394): development hardware, not medical
grade, confidence 0.9. -/
def d435DetectionRecord (serial : String) : HardwareDetectionResult where
  camera_type := "d435"
  model_name := "Intel RealSense D435"
  serial_number := serial
  firmware_version := "Unknown"
  is_medical_grade := false
  is_production_ready := false
  detection_confidence := Rat.divInt 9 10
  connection_interface := "USB 3.0"

/-- The detection record built for each connected Femto Mega serial number
(camera_factory.cpp lines 422-431): medical grade, production ready,
confidence 0.95. -/
def femtoMegaDetectionRecord (serial : String) : HardwareDetectionResult where
  camera_type := "femto_mega"
  model_name := "ORBBEC Femto Mega"
  serial_number := serial
  firmware_version := "Unknown"
  is_medical_grade := true
  is_production_ready := true
  detection_confidence := Rat.divInt 19 20
  connection_interface := "USB 3.0"

/-- CameraFactory::detectD435Hardware (camera_factory.cpp lines 376-411). -/
def detectD435Hardware (env : HardwareEnv) : List HardwareDetectionResult :=
  env.d435_serials.map d435DetectionRecord

/-- CameraFactory::detectFemtoMegaHardware (camera_factory.cpp lines
413-449). -/
def detectFemtoMegaHardware (env : HardwareEnv) : List HardwareDetectionResult :=
  env.femto_serials.map femtoMegaDetectionRecord

/-- The simulated D435 detection record (camera_factory.cpp lines 328-338).
Note is_medical_grade is set to true in the source. -/
def d435SimResult : HardwareDetectionResult where
  camera_type := "d435_sim"
  model_name := "Intel RealSense D435 (Simulation)"
  serial_number := "SIM001"
  firmware_version := "1.0.0-sim"
  is_medical_grade := true
  is_production_ready := false
  detection_confidence := Rat.divInt 1 1
  connection_interface := "Simulation"

/-- The simulated Femto Mega detection record (camera_factory.cpp lines
340-350). Note is_medical_grade is set to true in the source. -/
def femtoMegaSimResult : HardwareDetectionResult where
  camera_type := "femto_mega_sim"
  model_name := "ORBBEC Femto Mega (Simulation)"
  serial_number := "SIM002"
  firmware_version := "2.0.0-sim"
  is_medical_grade := true
  is_production_ready := true
  detection_confidence := Rat.divInt 1 1
  connection_interface := "Simulation"

/-- CameraFactory::performHardwareDetection (camera_factory.cpp lines
320-374): in simulation mode return the two fixed simulated records,
otherwise probe the two vendor SDKs. -/
def performHardwareDetection (st : FactoryState) (env : HardwareEnv) :
    List HardwareDetectionResult :=
  if st.simulation_mode then [d435SimResult, femtoMegaSimResult]
  else detectD435Hardware env ++ detectFemtoMegaHardware env

/-- CameraFactory::checkMedicalCertification (camera_factory.cpp lines
531-534). -/
def checkMedicalCertification (result : HardwareDetectionResult) : Bool :=
  result.is_medical_grade

/-- CameraFactory::validateDetectionResult (camera_factory.cpp lines
511-529): reject non-medical hardware when compliance checking is enabled,
and any record with detection confidence below 0.5. The production-readiness
block of the source is an empty statement. -/
def validateDetectionResult (cfg : CameraFactoryConfig)
    (result : HardwareDetectionResult) : Bool :=
  if cfg.enable_medical_compliance_check = true ∧
      ¬(checkMedicalCertification result = true) then false
  else if ratLt result.detection_confidence (Rat.divInt 1 2) then false
  else true

/-- The comparison lambda passed to std::sort by
CameraFactory::selectBestCamera (camera_factory.cpp lines 462-496). For two
C++ bools with a != b, the expression a > b equals a, written here as
a && !b. -/
def cameraLess (cfg : CameraFactoryConfig)
    (a b : HardwareDetectionResult) : Bool :=
  if cfg.enable_medical_compliance_check = true ∧
      ¬(a.is_medical_grade = b.is_medical_grade) then
    a.is_medical_grade && !b.is_medical_grade
  else if cfg.prefer_production_hardware = true ∧
      ¬(a.is_production_ready = b.is_production_ready) then
    a.is_production_ready && !b.is_production_ready
  else if ratLt (Rat.divInt 1 100)
      (ratAbs (ratSub a.detection_confidence b.detection_confidence)) then
    ratLt b.detection_confidence a.detection_confidence
  else if cfg.preferred_camera_type ≠ "auto" ∧
      a.camera_type = cfg.preferred_camera_type then true
  else if cfg.preferred_camera_type ≠ "auto" ∧
      b.camera_type = cfg.preferred_camera_type then false
  else if a.camera_type ≠ b.camera_type then
    decide (a.camera_type = "femto_mega")
  else false

/-- The std::sort call of CameraFactory::selectBestCamera (camera_factory.cpp
line 462), modelled as an insertion sort with the same comparator. For two
elements and for lists whose elements are pairwise strictly ordered by the
comparator this agrees with any conforming std::sort; every property proved
below depends only on the sorted list being a permutation of the input with
this comparator applied, which holds for the library sort as well. -/
def sortHardware (cfg : CameraFactoryConfig)
    (hw : List HardwareDetectionResult) : List HardwareDetectionResult :=
  List.insertionSort (fun a b => cameraLess cfg a b = true) hw

/-- The selection loop of CameraFactory::selectBestCamera (camera_factory.cpp
lines 499-505): the first sorted record passing validateDetectionResult. -/
def selectBestRecord (cfg : CameraFactoryConfig)
    (hw : List HardwareDetectionResult) : Option HardwareDetectionResult :=
  (sortHardware cfg hw).find? (fun r => validateDetectionResult cfg r)

/-- CameraFactory::selectBestCamera (camera_factory.cpp lines 451-509):
returns the camera_type of the best validated record, or the empty string
when no record passes validation (also when the input list is empty). -/
def selectBestCamera (cfg : CameraFactoryConfig)
    (hw : List HardwareDetectionResult) : String :=
  match selectBestRecord cfg hw with
  | some r => r.camera_type
  | none => ""

/-- The camera object produced by the factory, abstracted to the backend
family it belongs to and the type string it was requested with. -/
inductive Camera where
  | sim (camera_type : String)
  | hw (camera_type : String)
  | custom (camera_type : String)
deriving DecidableEq

/-- CameraFactory::createSimulationCamera (camera_factory.cpp lines
536-548). The SimulationCamera class itself is not part of src; modelled
from the spec: the simulation backend generates synthetic frames and its
construction is not specified to fail, so the catch branch of the source
never fires in the model. -/
def createSimulationCamera (camera_type : String) : Option Camera :=
  some (Camera.sim camera_type)

/-- The non-simulation, non-auto part of CameraFactory::createCamera
(camera_factory.cpp lines 143-199): custom factories are consulted first
and their product is returned without validation; then the d435 or
femto_mega sub-factory builds the camera (creation failure or a thrown
exception yields nullptr); an unknown type yields nullptr; a camera built
by a sub-factory is destroyed again when enable_hardware_validation is set
and its validate() call does not return SUCCESS. -/
def createCameraSpecific (st : FactoryState) (env : HardwareEnv)
    (camera_type : String) : Option Camera :=
  match env.custom_types.lookup camera_type with
  | some ok => if ok then some (Camera.custom camera_type) else none
  | none =>
    let created : Option Camera :=
      if camera_type = "d435" then
        if env.d435_create_ok then some (Camera.hw camera_type) else none
      else if camera_type = "femto_mega" then
        if env.femto_create_ok then some (Camera.hw camera_type) else none
      else none
    match created with
    | some cam =>
      if st.config.enable_hardware_validation = true ∧
          ¬(env.validate_ok camera_type = true) then none
      else some cam
    | none => none

/-- The createCamera call made from inside CameraFactory::createBestCamera
(camera_factory.cpp line 231). The simulation-mode branch of createCamera
is checked first; a selected type equal to the string auto would re-enter
createBestCamera while the factory mutex is already held (std::mutex is not
recursive), so no camera is ever produced on that path and it is modelled
as none; no detection record built by this code carries that type. -/
def createCameraInner (st : FactoryState) (env : HardwareEnv)
    (camera_type : String) : Option Camera :=
  if st.simulation_mode then createSimulationCamera camera_type
  else if camera_type = "auto" then none
  else createCameraSpecific st env camera_type

/-- CameraFactory::createBestCamera (camera_factory.cpp lines 202-232):
detect hardware; when nothing is detected fall back to a hardcoded d435
simulation camera if both enable_fallback_mode and enable_simulation_mode
are set, else fail; otherwise select the best camera type and make a single
creation attempt on it. -/
def createBestCamera (st : FactoryState) (env : HardwareEnv) : Option Camera :=
  let detected := performHardwareDetection st env
  if detected = [] then
    if st.config.enable_fallback_mode && st.config.enable_simulation_mode then
      createSimulationCamera ("d435")
    else none
  else
    let best := selectBestCamera st.config detected
    if best = "" then none
    else createCameraInner st env best

/-- CameraFactory::createCamera (camera_factory.cpp lines 125-200): the
simulation-mode branch short-circuits everything; the auto branch delegates
to createBestCamera; otherwise custom factories and the two sub-factories
are consulted. -/
def createCamera (st : FactoryState) (env : HardwareEnv)
    (camera_type : String) : Option Camera :=
  if st.simulation_mode then createSimulationCamera camera_type
  else if camera_type = "auto" then createBestCamera st env
  else createCameraSpecific st env camera_type

/-- DETECTION_CACHE_TIMEOUT = std::chrono::minutes{5} (camera_factory.h line
264), in milliseconds. -/
def DETECTION_CACHE_TIMEOUT : Int := 5 * 60 * 1000

/-- CameraFactory::isDetectionCacheValid (camera_factory.cpp lines 568-577):
the validity flag must be set and the signed cache age must be below the
five-minute timeout. -/
def isDetectionCacheValid (st : FactoryState) (now : Int) : Bool :=
  if ¬(st.detection_cache_valid = true) then false
  else decide (now - st.last_detection_time < DETECTION_CACHE_TIMEOUT)

/-- CameraFactory::detectAllHardware (camera_factory.cpp lines 301-318):
return the cache when it is valid, otherwise perform a fresh detection and
repopulate the cache, stamping the current time. -/
def detectAllHardware (st : FactoryState) (env : HardwareEnv) (now : Int) :
    List HardwareDetectionResult × FactoryState :=
  if isDetectionCacheValid st now then (st.detection_cache, st)
  else
    let results := performHardwareDetection st env
    (results,
      { st with detection_cache := results, last_detection_time := now,
                detection_cache_valid := true })

/-- CameraFactory::configure (camera_factory.cpp lines 101-118): install the
new configuration, invalidate the detection cache (invalidateDetectionCache
clears the cached list and the validity flag, lines 563-566) and align
simulation_mode_ with the configured flag. -/
def configure (st : FactoryState) (cfg : CameraFactoryConfig) : FactoryState :=
  { st with config := cfg,
            detection_cache := [],
            detection_cache_valid := false,
            simulation_mode := cfg.enable_simulation_mode }

/-- CameraFactory::addErrorMessage (camera_factory.cpp lines 550-557):
push_back the message, then erase the front (oldest) element whenever the
vector exceeds 100 entries. -/
def addErrorMessage (msgs : List String) (message : String) : List String :=
  let appended := msgs ++ [message]
  if 100 < appended.length then appended.drop 1 else appended

/-- The only two mutations the source ever applies to the error_messages_
vector: addErrorMessage (camera_factory.cpp lines 550-557) and
clearErrorMessages (lines 559-561). Every public factory operation touches
error_messages_ exclusively through these two helpers. -/
inductive FactoryErrorOp where
  | add (message : String)
  | clear

/-- Apply one error-history mutation. -/
def applyErrorOp (msgs : List String) : FactoryErrorOp → List String
  | .add m => addErrorMessage msgs m
  | .clear => []

/-- Run a sequence of error-history mutations from a starting history. -/
def runErrorOps (ops : List FactoryErrorOp) (msgs : List String) : List String :=
  ops.foldl applyErrorOp msgs

/-- Concrete detection list of the S2 scenario: one connected D435 and one
connected Femto Mega, in probe order. -/
def s2Detected : List HardwareDetectionResult :=
  [d435DetectionRecord ("842512070001"), femtoMegaDetectionRecord ("FM770002")]

/-- S2 configuration with medical compliance checking disabled and the
stereo-IR tag preferred, production preference kept at its default. -/
def s2ConfigPreferD435 : CameraFactoryConfig :=
  { DEFAULT_CONFIG with
      enable_medical_compliance_check := false,
      preferred_camera_type := "d435" }

/-- Variant of s2ConfigPreferD435 with production preference disabled as
well. -/
def s2ConfigPreferD435NoProd : CameraFactoryConfig :=
  { s2ConfigPreferD435 with prefer_production_hardware := false }

/-- Family of configurations with medical compliance checking enabled (the
default) and the remaining selection knobs free. -/
def s2ComplianceConfig (pp : Bool) (pref : String) : CameraFactoryConfig :=
  { DEFAULT_CONFIG with
      prefer_production_hardware := pp, preferred_camera_type := pref }

/-- Family of configurations with medical compliance checking disabled, the
d435 tag preferred and the production preference free. -/
def s2PreferD435Config (pp : Bool) : CameraFactoryConfig :=
  { s2ConfigPreferD435 with prefer_production_hardware := pp }

/-- Environment in which no physical camera is connected. -/
def emptyEnv : HardwareEnv where
  d435_serials := []
  femto_serials := []
  d435_create_ok := false
  femto_create_ok := false
  custom_types := []
  validate_ok := fun _ => true

/-- Configuration for the C2 counterexample: compliance required, fallback
and simulation both enabled, the stereo-IR tag preferred. -/
def fallbackConfig : CameraFactoryConfig :=
  { DEFAULT_CONFIG with
      preferred_camera_type := "d435",
      enable_fallback_mode := true,
      enable_simulation_mode := true }

/-- Configuration for the C2 witness: compliance required, fallback and
simulation both disabled. -/
def noFallbackConfig : CameraFactoryConfig :=
  { DEFAULT_CONFIG with
      enable_fallback_mode := false,
      enable_simulation_mode := false }

/-- Environment for the C2 witness: a single connected D435 (whose record is
not medical grade and so fails validation under compliance checking). -/
def d435OnlyEnv : HardwareEnv where
  d435_serials := ["842512070001"]
  femto_serials := []
  d435_create_ok := true
  femto_create_ok := true
  custom_types := []
  validate_ok := fun _ => true

/-- Environment for claim C4: both cameras connected, the Femto Mega
sub-factory fails to build its camera while the D435 sub-factory succeeds
and its camera validates. -/
def femtoCreateFailsEnv : HardwareEnv where
  d435_serials := ["842512070001"]
  femto_serials := ["FM770002"]
  d435_create_ok := true
  femto_create_ok := false
  custom_types := []
  validate_ok := fun _ => true

/-- Configuration for the C4 counterexample: compliance checking disabled so
that both detection records pass record-level validation. -/
def c4Config : CameraFactoryConfig :=
  { DEFAULT_CONFIG with enable_medical_compliance_check := false }

/-- A factory state with a freshly populated, valid detection cache stamped
at time zero. -/
def cachedState : FactoryState where
  config := DEFAULT_CONFIG
  simulation_mode := false
  detection_cache := [d435DetectionRecord ("842512070001")]
  last_detection_time := 0
  detection_cache_valid := true

/-- The executable comparison ratLt agrees with the order of the rationals. -/
theorem ratLt_iff (a b : Rat) : ratLt a b = true ↔ a < b := by
  simp [ratLt, Rat.lt_def]

/-- The executable subtraction ratSub agrees with subtraction of the
rationals. -/
theorem ratSub_eq (a b : Rat) : ratSub a b = a - b := by
  have ha : ((a.den : Rat)) ≠ 0 := by exact_mod_cast a.den_ne_zero
  have hb : ((b.den : Rat)) ≠ 0 := by exact_mod_cast b.den_ne_zero
  rw [ratSub, Rat.divInt_eq_div, eq_comm]
  conv_lhs => rw [← Rat.num_div_den a, ← Rat.num_div_den b]
  rw [div_sub_div _ _ ha hb]
  push_cast
  ring_nf

/-- The executable absolute value ratAbs agrees with the absolute value of
the rationals. -/
theorem ratAbs_eq (q : Rat) : ratAbs q = |q| := by
  rw [ratAbs]
  split_ifs with h
  · rw [abs_of_neg (Rat.num_neg.mp h)]
  · rw [abs_of_nonneg (Rat.num_nonneg.mp (le_of_not_lt h))]

/-- The half threshold used by validateDetectionResult, as a rational. -/
theorem ratHalf_eq : (Rat.divInt 1 2 : Rat) = 1/2 := by
  rw [Rat.divInt_eq_div]
  norm_num

/-- Unfolded characterization of isDetectionCacheValid. -/
theorem isDetectionCacheValid_iff (st : FactoryState) (now : Int) :
    isDetectionCacheValid st now = true ↔
      st.detection_cache_valid = true ∧
      now - st.last_detection_time < DETECTION_CACHE_TIMEOUT := by
  cases hcv : st.detection_cache_valid <;> simp [isDetectionCacheValid, hcv]

/-- One step of addErrorMessage keeps the error history at no more than 100
entries. -/
theorem addErrorMessage_length_le (msgs : List String) (m : String)
    (h : msgs.length ≤ 100) : (addErrorMessage msgs m).length ≤ 100 := by
  rw [addErrorMessage]
  split_ifs with h1
  · simp only [List.length_drop, List.length_append, List.length_singleton]
    omega
  · simp only [List.length_append, List.length_singleton] at h1 ⊢
    omega

/-- Any sequence of error-history mutations preserves the 100-entry bound. -/
theorem runErrorOps_length_le :
    ∀ (ops : List FactoryErrorOp) (msgs : List String),
      msgs.length ≤ 100 → (runErrorOps ops msgs).length ≤ 100 := by
  intro ops
  induction ops with
  | nil => intro msgs h; simpa [runErrorOps] using h
  | cons op rest ih =>
    intro msgs h
    have hstep : (applyErrorOp msgs op).length ≤ 100 := by
      cases op with
      | add m => exact addErrorMessage_length_le msgs m h
      | clear => simp [applyErrorOp]
    simpa [runErrorOps, List.foldl_cons] using ih (applyErrorOp msgs op) hstep

/-- Claim C7: the CameraError enumeration carries exactly the codes
SUCCESS=0 and DEVICE_NOT_FOUND=1001 through SAFETY_VIOLATION=1013, with no
other members (every value of the type occurs in allCameraErrors). -/
theorem camera_error_codes_exact :
    allCameraErrors.map cameraErrorCode =
      [0, 1001, 1002, 1003, 1004, 1005, 1006, 1007, 1008, 1009, 1010, 1011,
       1012, 1013] ∧
    ∀ e : CameraError, e ∈ allCameraErrors := by
  refine ⟨rfl, ?_⟩
  intro e
  cases e <;> simp [allCameraErrors]

/-- Claim C8: a default-constructed CameraConfig has buffer_size 5 and a
maximum operating temperature of 70 degrees. -/
theorem camera_config_defaults :
    defaultCameraConfig.buffer_size = 5 ∧
    defaultCameraConfig.max_temperature = 70 :=
  ⟨rfl, rfl⟩

/-- Claim C9: with simulation mode enabled, createCamera returns a
simulation camera of the requested type for every type string, every
configuration, every cache state and every hardware environment: the
request is never routed to the sub-factories, the custom factories or the
post-creation validate step. -/
theorem simulation_mode_bypass :
    ∀ (cfg : CameraFactoryConfig) (cache : List HardwareDetectionResult)
      (t0 : Int) (cv : Bool) (env : HardwareEnv) (camera_type : String),
      createCamera
        { config := cfg, simulation_mode := true, detection_cache := cache,
          last_detection_time := t0, detection_cache_valid := cv }
        env camera_type = some (Camera.sim camera_type) := by
  intros
  rfl

/-- Claim C10: starting from the empty history, every sequence of
error-history operations leaves at most 100 stored messages, and adding a
message to a history of exactly 100 entries removes the oldest (front)
entry and keeps the size at 100. -/
theorem error_history_bounded :
    (∀ ops : List FactoryErrorOp, (runErrorOps ops []).length ≤ 100) ∧
    (∀ (msgs : List String) (m : String), msgs.length = 100 →
      addErrorMessage msgs m = msgs.drop 1 ++ [m] ∧
      (addErrorMessage msgs m).length = 100) := by
  constructor
  · intro ops
    exact runErrorOps_length_le ops [] (by simp)
  · intro msgs m h
    have h1 : 100 < (msgs ++ [m]).length := by simp [h]
    rw [addErrorMessage]
    rw [if_pos h1]
    refine ⟨List.drop_append_of_le_length (by omega), ?_⟩
    simp only [List.length_drop, List.length_append, List.length_singleton]
    omega

/-- Witness for error_history_bounded: pushing one message onto a full
100-entry history drops the oldest entry and stays at 100. -/
theorem error_history_bounded_witness :
    addErrorMessage (List.replicate 100 ("e")) ("m") =
      (List.replicate 100 ("e")).drop 1 ++ [("m")] ∧
    (addErrorMessage (List.replicate 100 ("e")) ("m")).length = 100 :=
  error_history_bounded.2 (List.replicate 100 ("e")) ("m") (by simp)

/-- Counterexample to claim C6 as stated: the d435 simulation detection
record produced by performHardwareDetection in simulation mode reports
is_medical_grade = true, not false. -/
theorem sim_records_not_default_false_cex :
    d435SimResult ∈
      performHardwareDetection
        (mkState { DEFAULT_CONFIG with enable_simulation_mode := true } true)
        emptyEnv ∧
    d435SimResult.is_medical_grade = true :=
  ⟨by decide, rfl⟩

/-- Claim C6 as amended: every detection record produced for a simulation
camera declares is_medical_grade = true (both simulation variants do so
explicitly); no simulation detection record reports false. -/
theorem sim_records_medical_grade_amended :
    ∀ (cfg : CameraFactoryConfig) (cache : List HardwareDetectionResult)
      (t0 : Int) (cv : Bool) (env : HardwareEnv) (r : HardwareDetectionResult),
      r ∈ performHardwareDetection
          { config := cfg, simulation_mode := true, detection_cache := cache,
            last_detection_time := t0, detection_cache_valid := cv } env →
      r.is_medical_grade = true := by
  intro cfg cache t0 cv env r hr
  simp only [performHardwareDetection, if_true, List.mem_cons,
    List.mem_singleton, List.not_mem_nil, or_false] at hr
  rcases hr with h | h <;> subst h <;> rfl

/-- Witness for sim_records_medical_grade_amended at the femto_mega_sim
record. -/
theorem sim_records_medical_grade_amended_witness :
    femtoMegaSimResult.is_medical_grade = true :=
  sim_records_medical_grade_amended DEFAULT_CONFIG [] 0 false emptyEnv
    femtoMegaSimResult (by decide)

/-- Counterexample to claim C1 as stated: on the S2 detection list, with
medical compliance checking disabled and the stereo-IR tag d435 preferred,
selectBestCamera still returns femto_mega (for either value of the
production preference), because the confidence comparison 0.95 versus 0.9
is ranked before the preferred-type tiebreak. -/
theorem s2_preferred_tag_cex :
    ¬(selectBestCamera s2ConfigPreferD435 s2Detected = "d435") ∧
    ¬(selectBestCamera s2ConfigPreferD435NoProd s2Detected = "d435") ∧
    selectBestCamera s2ConfigPreferD435 s2Detected = "femto_mega" ∧
    selectBestCamera s2ConfigPreferD435NoProd s2Detected = "femto_mega" := by
  refine ⟨by decide, by decide, by decide, by decide⟩

/-- Counterexample to claim C2 as stated: with compliance required, the
stereo-IR tag preferred and fallback plus simulation both enabled, no
physical hardware connected (so automatic selection finds no usable
hardware candidate), createBestCamera returns the femto_mega_sim
simulation camera, not a simulation backend of the preferred d435 tag. -/
theorem auto_fallback_preferred_tag_cex :
    createBestCamera (mkState fallbackConfig true) emptyEnv =
      some (Camera.sim ("femto_mega_sim")) ∧
    fallbackConfig.preferred_camera_type = "d435" ∧
    ¬(createBestCamera (mkState fallbackConfig true) emptyEnv =
        some (Camera.sim ("d435"))) ∧
    ¬(createBestCamera (mkState fallbackConfig true) emptyEnv =
        some (Camera.sim ("d435_sim"))) ∧
    detectD435Hardware emptyEnv ++ detectFemtoMegaHardware emptyEnv = [] := by
  refine ⟨by decide, rfl, by decide, by decide, rfl⟩

/-- Counterexample to claim C4 as stated: with both cameras detected and
compliance checking disabled, the top-ranked candidate femto_mega fails to
create, and createBestCamera returns no camera at all even though the next
candidate d435 would be created and validated successfully; no second
candidate is attempted. -/
theorem single_attempt_cex :
    createBestCamera (mkState c4Config false) femtoCreateFailsEnv = none ∧
    selectBestCamera c4Config
      (performHardwareDetection (mkState c4Config false) femtoCreateFailsEnv) =
      "femto_mega" ∧
    createCameraInner (mkState c4Config false) femtoCreateFailsEnv ("d435") =
      some (Camera.hw ("d435")) := by
  refine ⟨by decide, by decide, by decide⟩

/-- Claim C3: for every detection list and every factory configuration, the
record selected by the loop of selectBestCamera never has detection
confidence below one half, never lacks the medical-grade flag while medical
compliance checking is enabled, and is the record whose camera_type
selectBestCamera returns. -/
theorem filter_invariant :
    ∀ (cfg : CameraFactoryConfig) (hw : List HardwareDetectionResult)
      (r : HardwareDetectionResult),
      selectBestRecord cfg hw = some r →
      ¬(r.detection_confidence < 1/2) ∧
      (cfg.enable_medical_compliance_check = true → r.is_medical_grade = true) ∧
      selectBestCamera cfg hw = r.camera_type := by
  intro cfg hw r hsel
  have hval : validateDetectionResult cfg r = true := List.find?_some hsel
  rw [validateDetectionResult] at hval
  by_cases h1 : cfg.enable_medical_compliance_check = true ∧
      ¬(checkMedicalCertification r = true)
  · rw [if_pos h1] at hval
    exact absurd hval (by simp)
  rw [if_neg h1] at hval
  by_cases h2 : ratLt r.detection_confidence (Rat.divInt 1 2) = true
  · rw [if_pos h2] at hval
    exact absurd hval (by simp)
  refine ⟨?_, ?_, ?_⟩
  · intro hlt
    exact h2 ((ratLt_iff _ _).mpr (by rwa [ratHalf_eq]))
  · intro hc
    by_contra hm
    exact h1 ⟨hc, by rwa [checkMedicalCertification]⟩
  · simp [selectBestCamera, hsel]

/-- Witness for filter_invariant on the S2 detection list under the default
configuration: the selected femto_mega record has confidence at least one
half and is medical grade. -/
theorem filter_invariant_witness :
    ¬((femtoMegaDetectionRecord ("FM770002")).detection_confidence < 1/2) ∧
    (DEFAULT_CONFIG.enable_medical_compliance_check = true →
      (femtoMegaDetectionRecord ("FM770002")).is_medical_grade = true) ∧
    selectBestCamera DEFAULT_CONFIG s2Detected =
      (femtoMegaDetectionRecord ("FM770002")).camera_type :=
  filter_invariant DEFAULT_CONFIG s2Detected
    (femtoMegaDetectionRecord ("FM770002")) (by decide)

/-- Claim C4 as amended: automatic selection tries the sorted candidates
against record-level validation only; a single instantiate-plus-validate
attempt is made on the one selected camera_type, and when that attempt
fails createBestCamera returns no camera instead of trying the next
candidate. -/
theorem single_attempt_amended :
    ∀ (st : FactoryState) (env : HardwareEnv) (r : HardwareDetectionResult),
      st.simulation_mode = false →
      selectBestRecord st.config (performHardwareDetection st env) = some r →
      createCameraInner st env r.camera_type = none →
      createBestCamera st env = none := by
  intro st env r hsim hsel hfail
  have hne : ¬(performHardwareDetection st env = []) := by
    intro h
    rw [h] at hsel
    simp [selectBestRecord, sortHardware, List.insertionSort] at hsel
  have hbest : selectBestCamera st.config (performHardwareDetection st env) =
      r.camera_type := by
    simp [selectBestCamera, hsel]
  rw [createBestCamera]
  simp only [hbest, if_neg hne]
  by_cases hb : r.camera_type = ""
  · rw [if_pos hb]
  · rw [if_neg hb]
    exact hfail

/-- Witness for single_attempt_amended: under the default configuration with
both cameras connected but the femto_mega creation failing, createBestCamera
returns no camera. -/
theorem single_attempt_amended_witness :
    createBestCamera (mkState DEFAULT_CONFIG false) femtoCreateFailsEnv =
      none :=
  single_attempt_amended (mkState DEFAULT_CONFIG false) femtoCreateFailsEnv
    (femtoMegaDetectionRecord ("FM770002")) rfl (by decide) (by decide)

/-- Claim C5: detectAllHardware answers from the cache exactly when the
validity flag is set and the cache is younger than the five-minute timeout;
a cache miss performs a fresh detection and restamps the cache; configure
invalidates the cache so the next detectAllHardware detects afresh; and a
cache populated by detectAllHardware stays valid exactly for the five-minute
window. -/
theorem detection_cache_spec :
    ∀ (st : FactoryState) (env : HardwareEnv) (now now2 : Int)
      (cfg : CameraFactoryConfig),
      (isDetectionCacheValid st now = true ↔
        st.detection_cache_valid = true ∧
        now - st.last_detection_time < DETECTION_CACHE_TIMEOUT) ∧
      (isDetectionCacheValid st now = true →
        detectAllHardware st env now = (st.detection_cache, st)) ∧
      (isDetectionCacheValid st now = false →
        (detectAllHardware st env now).1 = performHardwareDetection st env ∧
        (detectAllHardware st env now).2.detection_cache_valid = true ∧
        (detectAllHardware st env now).2.last_detection_time = now) ∧
      (isDetectionCacheValid (configure st cfg) now = false ∧
        (detectAllHardware (configure st cfg) env now).1 =
          performHardwareDetection (configure st cfg) env) ∧
      (isDetectionCacheValid (detectAllHardware st env now).2 now2 = true ↔
        now2 - (detectAllHardware st env now).2.last_detection_time <
          DETECTION_CACHE_TIMEOUT) := by
  intro st env now now2 cfg
  refine ⟨isDetectionCacheValid_iff st now, ?_, ?_, ⟨?_, ?_⟩, ?_⟩
  · intro h
    simp [detectAllHardware, h]
  · intro h
    simp [detectAllHardware, h]
  · simp [isDetectionCacheValid, configure]
  · simp [detectAllHardware, isDetectionCacheValid, configure]
  · by_cases h : isDetectionCacheValid st now = true
    · obtain ⟨hcv, _⟩ := (isDetectionCacheValid_iff st now).mp h
      rw [detectAllHardware, if_pos h]
      simp [isDetectionCacheValid, hcv]
    · rw [detectAllHardware, if_neg h]
      simp [isDetectionCacheValid]

/-- Witness for detection_cache_spec: a valid one-second-old cache is
returned unchanged, and the same cache queried ten minutes after its stamp
is refreshed by a fresh detection. -/
theorem detection_cache_spec_witness :
    detectAllHardware cachedState emptyEnv 1000 =
      (cachedState.detection_cache, cachedState) ∧
    (detectAllHardware cachedState emptyEnv 600000).1 =
      performHardwareDetection cachedState emptyEnv :=
  ⟨(detection_cache_spec cachedState emptyEnv 1000 0 DEFAULT_CONFIG).2.1
      (by decide),
   ((detection_cache_spec cachedState emptyEnv 600000 0 DEFAULT_CONFIG).2.2.1
      (by decide)).1⟩

/-- Claim C1 as amended: on the S2 detection list (in either order), with
medical compliance checking enabled selectBestCamera returns femto_mega for
every production preference and every preferred type; with compliance
checking disabled and the d435 tag preferred it still returns femto_mega
for either production preference, because the confidence comparison is
ranked before the preferred-type tiebreak. -/
theorem s2_selection_policy_amended :
    (∀ (pp : Bool) (pref : String),
      selectBestCamera (s2ComplianceConfig pp pref) s2Detected =
        "femto_mega" ∧
      selectBestCamera (s2ComplianceConfig pp pref) s2Detected.reverse =
        "femto_mega") ∧
    (∀ pp : Bool,
      selectBestCamera (s2PreferD435Config pp) s2Detected = "femto_mega" ∧
      selectBestCamera (s2PreferD435Config pp) s2Detected.reverse =
        "femto_mega") := by
  constructor
  · intro pp pref
    constructor <;>
      simp [selectBestCamera, selectBestRecord, sortHardware,
        List.insertionSort, List.orderedInsert, cameraLess,
        validateDetectionResult, checkMedicalCertification, s2Detected,
        d435DetectionRecord, femtoMegaDetectionRecord, DEFAULT_CONFIG,
        s2ComplianceConfig, List.find?,
        (by decide : ratLt (Rat.divInt 19 20) (Rat.divInt 1 2) = false)]
  · intro pp
    cases pp <;> exact ⟨by decide, by decide⟩

/-- Claim C2 as amended: with fallback and simulation both enabled (and the
default production preference), automatic selection ignores the hardware
probes entirely: detection yields the two simulated records and
createBestCamera returns the femto_mega_sim simulation camera, regardless
of the preferred tag; with fallback and simulation both disabled, whenever
every probed hardware record fails validation (in particular when none is
probed), createBestCamera returns no camera. -/
theorem auto_fallback_amended :
    (∀ (ad hv mc : Bool) (pref : String) (dt : Int) (env : HardwareEnv),
      createBestCamera
        (mkState
          { prefer_production_hardware := true,
            enable_automatic_detection := ad,
            enable_hardware_validation := hv,
            enable_medical_compliance_check := mc,
            preferred_camera_type := pref,
            detection_timeout_ms := dt,
            enable_fallback_mode := true,
            enable_simulation_mode := true } true)
        env = some (Camera.sim ("femto_mega_sim"))) ∧
    (∀ (cfg : CameraFactoryConfig) (env : HardwareEnv),
      cfg.enable_fallback_mode = false →
      cfg.enable_simulation_mode = false →
      (∀ r ∈ detectD435Hardware env ++ detectFemtoMegaHardware env,
        validateDetectionResult cfg r = false) →
      createBestCamera (mkState cfg false) env = none) := by
  constructor
  · intro ad hv mc pref dt env
    simp [createBestCamera, performHardwareDetection, mkState,
      selectBestCamera, selectBestRecord, sortHardware, List.insertionSort,
      List.orderedInsert, cameraLess, validateDetectionResult,
      checkMedicalCertification, d435SimResult, femtoMegaSimResult,
      List.find?, createCameraInner, createSimulationCamera,
      (by decide : ratLt (Rat.divInt 1 1) (Rat.divInt 1 2) = false),
      (by decide : ratLt (1 : Rat) (Rat.divInt 1 2) = false),
      (by decide : ("femto_mega_sim" : String) ≠ "")]
  · intro cfg env hfb hsim hall
    by_cases hempty :
        detectD435Hardware env ++ detectFemtoMegaHardware env = []
    · simp [createBestCamera, performHardwareDetection, mkState, hempty, hfb]
    · have hfind : selectBestRecord cfg
          (detectD435Hardware env ++ detectFemtoMegaHardware env) = none := by
        rw [selectBestRecord]
        apply List.find?_eq_none.mpr
        intro x hx
        simp only [sortHardware] at hx
        have hx' : x ∈ detectD435Hardware env ++ detectFemtoMegaHardware env :=
          (List.mem_insertionSort _).mp hx
        simp [hall x hx']
      simp [createBestCamera, performHardwareDetection, mkState, hempty,
        selectBestCamera, hfind]

/-- Witness for auto_fallback_amended: with fallback and simulation both
disabled and a single connected D435 whose record fails the compliance
validation, createBestCamera returns no camera. -/
theorem auto_fallback_amended_witness :
    createBestCamera (mkState noFallbackConfig false) d435OnlyEnv = none :=
  auto_fallback_amended.2 noFallbackConfig d435OnlyEnv rfl rfl (by decide)

end TherapyDevice
